import Mathlib

/-!
Shallow embedding of the Aura scoring engine (src/lib/aura.ts) of the
farcaster-aura-miniapp repository.

The engine is a pure function over JavaScript numbers; we model those
numbers as real numbers.  Raw counts and ratios are arbitrary reals
(the code accepts any numeric input), while the values produced by
Math.round — the five breakdown dimensions and the final score — are
integers, so they are modelled with ℤ.  Math.round in JavaScript maps
x to the integer nearest to x, rounding halves toward +infinity, which
is exactly the Mathlib round function, with round x = ⌊x + 1/2⌋.  Math.log10 is
modelled by Real.logb 10.
-/

namespace Aura

/-- Type of the six archetype tags, from the AuraType union in aura.ts. -/
inductive AuraType : Type where
  | BUILDER
  | CREATOR
  | INFLUENCER
  | THINKER
  | DEGEN
  | LURKER
deriving DecidableEq, Repr

/-- Type of the caller-supplied record, from the AuraInputs interface in
aura.ts.  Optional fields of the interface become Option ℝ. -/
structure AuraInputs : Type where
  casts : ℝ
  replies : ℝ
  reactionsReceived : ℝ
  followers : ℝ
  longCastRatio : Option ℝ
  mediaCastRatio : Option ℝ
  baseTxCount : Option ℝ

/-- Type of the per-dimension breakdown, from the AuraBreakdown interface in
aura.ts.  Every field is produced by Math.round, hence an integer. -/
structure AuraBreakdown : Type where
  activity : ℤ
  impact : ℤ
  social : ℤ
  style : ℤ
  onchain : ℤ
deriving DecidableEq, Repr

/-- Display metadata triple returned by the meta function in aura.ts. -/
structure AuraMeta : Type where
  emoji : String
  label : String
  description : String
deriving DecidableEq, Repr

/-- Type of the result record, from the AuraResult interface in aura.ts. -/
structure AuraResult : Type where
  type : AuraType
  score : ℤ
  emoji : String
  label : String
  description : String
  breakdown : AuraBreakdown
deriving DecidableEq, Repr

/-- Model of the clamp helper in aura.ts:
clamp(n, min, max) = Math.min(max, Math.max(min, n)). -/
def clamp (n mi ma : ℝ) : ℝ := min ma (max mi n)

/-- Model of the clamp01 helper in aura.ts: clamp01(n) = clamp(n, 0, 1). -/
def clamp01 (n : ℝ) : ℝ := clamp n 0 1

/-- Model of the logScore function in aura.ts:
with v = max(0, value) and c = max(1, cap), the result is
round(clamp(log10(1+v) / log10(1+c) * 100, 0, 100)). -/
noncomputable def logScore (value cap : ℝ) : ℤ :=
  round (clamp (Real.logb 10 (1 + max 0 value) / Real.logb 10 (1 + max 1 cap) * 100) 0 100)

/-- Model of the builder feature score in pickAuraType:
activity*0.6 + impact*0.2 + (replies > casts ? 10 : 0), where replies and
casts are the inputs floored at 0 at the top of pickAuraType. -/
noncomputable def builder (inputs : AuraInputs) (breakdown : AuraBreakdown) : ℝ :=
  (breakdown.activity : ℝ) * 0.6 + (breakdown.impact : ℝ) * 0.2 +
    (if max 0 inputs.replies > max 0 inputs.casts then 10 else 0)

/-- Model of the creator feature score in pickAuraType:
style*0.75 + impact*0.15 + activity*0.1. -/
noncomputable def creator (breakdown : AuraBreakdown) : ℝ :=
  (breakdown.style : ℝ) * 0.75 + (breakdown.impact : ℝ) * 0.15 +
    (breakdown.activity : ℝ) * 0.1

/-- Model of the influencer feature score in pickAuraType:
social*0.45 + impact*0.45 + activity*0.1. -/
noncomputable def influencer (breakdown : AuraBreakdown) : ℝ :=
  (breakdown.social : ℝ) * 0.45 + (breakdown.impact : ℝ) * 0.45 +
    (breakdown.activity : ℝ) * 0.1

/-- Model of the thinker feature score in pickAuraType:
style*0.55 + activity*0.35 + (longRatio > 0.35 ? 10 : 0), where longRatio is
clamp01(longCastRatio ?? 0). -/
noncomputable def thinker (inputs : AuraInputs) (breakdown : AuraBreakdown) : ℝ :=
  (breakdown.style : ℝ) * 0.55 + (breakdown.activity : ℝ) * 0.35 +
    (if clamp01 (inputs.longCastRatio.getD 0) > 0.35 then 10 else 0)

/-- Model of the degen feature score in pickAuraType:
onchain*0.65 + activity*0.2 + impact*0.15. -/
noncomputable def degen (breakdown : AuraBreakdown) : ℝ :=
  (breakdown.onchain : ℝ) * 0.65 + (breakdown.activity : ℝ) * 0.2 +
    (breakdown.impact : ℝ) * 0.15

/-- Model of the isLurker condition in pickAuraType: with casts and replies
floored at 0, totalActivity <= 2, or activity, impact and social all <= 12. -/
def isLurker (inputs : AuraInputs) (breakdown : AuraBreakdown) : Prop :=
  max 0 inputs.casts + max 0 inputs.replies ≤ 2 ∨
    (breakdown.activity ≤ 12 ∧ breakdown.impact ≤ 12 ∧ breakdown.social ≤ 12)

/-- The head, after the stable descending sort of aura.ts
(entries.sort((a, b) => b[1] - a[1]); entries[0]), is the first entry of the
original list attaining the maximal value; topEntry computes that entry by a
left fold that replaces the current best only on a strictly greater value. -/
noncomputable def topEntry : AuraType × ℝ → List (AuraType × ℝ) → AuraType × ℝ
  | best, [] => best
  | best, e :: rest => topEntry (if e.2 > best.2 then e else best) rest

open Classical

/-- Model of the pickAuraType function in aura.ts: the LURKER override is
checked first; otherwise the archetype with the greatest feature score wins,
ties resolving to the entry listed first. -/
noncomputable def pickAuraType (inputs : AuraInputs) (breakdown : AuraBreakdown) : AuraType :=
  if isLurker inputs breakdown then .LURKER
  else
    (topEntry (.BUILDER, builder inputs breakdown)
      [(.CREATOR, creator breakdown),
       (.INFLUENCER, influencer breakdown),
       (.THINKER, thinker inputs breakdown),
       (.DEGEN, degen breakdown)]).1

/-- Model of the meta function in aura.ts: the fixed display triple of each
archetype, strings copied byte for byte from the source. -/
def meta : AuraType → AuraMeta
  | .BUILDER =>
      ⟨"🛠", "Builder Aura", "You ship more than you talk. Keep building."⟩
  | .CREATOR =>
      ⟨"🎨", "Creator Aura", "Taste + output. You make the timeline prettier."⟩
  | .INFLUENCER =>
      ⟨"📣", "Influencer Aura", "You move attention. The feed follows your signal."⟩
  | .THINKER =>
      ⟨"🧠", "Thinker Aura", "Depth merchant. Your replies add real brainpower."⟩
  | .DEGEN =>
      ⟨"🎰", "Degen Aura", "Onchain instincts. You’re early, often, and unbothered."⟩
  | .LURKER =>
      ⟨"👀", "Lurker Aura", "Silent watcher. Your aura is mysterious (and powerful)."⟩

/-- Model of the style computation in computeAura:
round(clamp(longRatio*55 + mediaRatio*45, 0, 100)) with both ratios
defaulted to 0 and clamped into [0,1]. -/
noncomputable def styleScore (inputs : AuraInputs) : ℤ :=
  round (clamp (clamp01 (inputs.longCastRatio.getD 0) * 55 +
    clamp01 (inputs.mediaCastRatio.getD 0) * 45) 0 100)

/-- The breakdown built inside computeAura: activity from
casts + replies*1.2 with cap 120, impact from reactionsReceived with cap 250,
social from followers with cap 2000, style from the ratio blend, onchain from
max(0, baseTxCount ?? 0) with cap 40. -/
noncomputable def breakdownOf (inputs : AuraInputs) : AuraBreakdown where
  activity := logScore (inputs.casts + inputs.replies * 1.2) 120
  impact := logScore inputs.reactionsReceived 250
  social := logScore inputs.followers 2000
  style := styleScore inputs
  onchain := logScore (max 0 (inputs.baseTxCount.getD 0)) 40

/-- The weighted final score of computeAura before clamping:
activity*0.35 + impact*0.30 + social*0.20 + style*0.10 + onchain*0.05. -/
noncomputable def weighted (breakdown : AuraBreakdown) : ℝ :=
  (breakdown.activity : ℝ) * 0.35 + (breakdown.impact : ℝ) * 0.30 +
    (breakdown.social : ℝ) * 0.20 + (breakdown.style : ℝ) * 0.10 +
    (breakdown.onchain : ℝ) * 0.05

/-- Model of the computeAura function in aura.ts. -/
noncomputable def computeAura (inputs : AuraInputs) : AuraResult :=
  { type := pickAuraType inputs (breakdownOf inputs)
    score :=
      if pickAuraType inputs (breakdownOf inputs) = .LURKER then
        round (clamp (weighted (breakdownOf inputs) * 0.7 + 10) 0 60)
      else
        round (clamp (weighted (breakdownOf inputs)) 0 100)
    emoji := (meta (pickAuraType inputs (breakdownOf inputs))).emoji
    label := (meta (pickAuraType inputs (breakdownOf inputs))).label
    description := (meta (pickAuraType inputs (breakdownOf inputs))).description
    breakdown := breakdownOf inputs }

/-- Modelled from the spec (C2): sanitize replaces each count by max(0, count),
each ratio by its clamp into [0,1], and each absent optional field by 0. -/
noncomputable def sanitize (i : AuraInputs) : AuraInputs where
  casts := max 0 i.casts
  replies := max 0 i.replies
  reactionsReceived := max 0 i.reactionsReceived
  followers := max 0 i.followers
  longCastRatio := some (clamp01 (i.longCastRatio.getD 0))
  mediaCastRatio := some (clamp01 (i.mediaCastRatio.getD 0))
  baseTxCount := some (max 0 (i.baseTxCount.getD 0))

/-- The sanitizer that matches what the code actually does: it normalizes
every field except casts and replies, which it leaves untouched (the code
floors only their combined weighted sum inside logScore, and floors them
separately inside pickAuraType). -/
noncomputable def sanitizeRest (i : AuraInputs) : AuraInputs :=
  { sanitize i with casts := i.casts, replies := i.replies }

/-- Modelled from the spec: the DEGEN description string printed in the
section 6 table of the spec, which uses the ASCII apostrophe (code point 39)
rather than the right single quotation mark of the source. -/
def specDegenDescription : String :=
  "Onchain instincts. You" ++ (Char.ofNat 39).toString ++
    "re early, often, and unbothered."

/-- The all-zero input record. -/
def zeroInputs : AuraInputs := ⟨0, 0, 0, 0, none, none, none⟩

/-- Input with a negative cast count but positive replies, exposing that the
activity raw value floors only the combined sum. -/
def negCastsInputs : AuraInputs := ⟨-1000, 10, 0, 0, none, none, none⟩

/-- Input with a tiny posting footprint but huge reach, from the LURKER
precedence test of the spec. -/
def lowFootprintInputs : AuraInputs := ⟨1, 0, 1000, 1000000, none, none, none⟩

/-- Input engineered so the builder and creator affinities are exactly equal
and maximal (activity 50, impact 100, social 0, style 40, onchain 0). -/
noncomputable def tieInputs : AuraInputs := ⟨10, 0, 250, 0, none, some (8 / 9), none⟩

/-- Input with every log-normalized dimension exactly at its cap. -/
def capInputs : AuraInputs := ⟨120, 0, 250, 2000, none, none, some 40⟩

/-- The concrete scenario of the spec: onchain saturates and DEGEN wins. -/
def degenInputs : AuraInputs := ⟨10, 2, 5, 20, none, none, some 60⟩

/-- Input with a large cast count and nothing else, clearing the LURKER
override. -/
def activeInputs : AuraInputs := ⟨200, 0, 0, 0, none, none, none⟩

/-! ### Helper lemmas about clamp and round -/

theorem clamp_le_right {n mi ma : ℝ} : clamp n mi ma ≤ ma := min_le_left _ _

theorem le_clamp_left {n mi ma : ℝ} (h : mi ≤ ma) : mi ≤ clamp n mi ma :=
  le_min h (le_max_left _ _)

theorem clamp_mono {n m mi ma : ℝ} (h : n ≤ m) : clamp n mi ma ≤ clamp m mi ma :=
  min_le_min le_rfl (max_le_max le_rfl h)

theorem clamp_eq_right {n mi ma : ℝ} (hmi : mi ≤ ma) (h : ma ≤ n) :
    clamp n mi ma = ma := by
  unfold clamp
  rw [max_eq_right (hmi.trans h), min_eq_left h]

theorem clamp_eq_self {n mi ma : ℝ} (h1 : mi ≤ n) (h2 : n ≤ ma) :
    clamp n mi ma = n := by
  unfold clamp
  rw [max_eq_right h1, min_eq_right h2]

theorem clamp01_idem (n : ℝ) : clamp01 (clamp01 n) = clamp01 n :=
  clamp_eq_self (le_clamp_left zero_le_one) clamp_le_right

theorem clamp01_nonneg (n : ℝ) : 0 ≤ clamp01 n := le_clamp_left zero_le_one

theorem clamp01_le_one (n : ℝ) : clamp01 n ≤ 1 := clamp_le_right

theorem round_mono {x y : ℝ} (h : x ≤ y) : round x ≤ round y := by
  rw [round_eq, round_eq]
  exact Int.floor_mono (by linarith)

theorem int_le_round {z : ℤ} {x : ℝ} (h : (z : ℝ) ≤ x) : z ≤ round x := by
  calc z = round ((z : ℝ)) := (round_intCast z).symm
  _ ≤ round x := round_mono h

theorem round_le_int {z : ℤ} {x : ℝ} (h : x ≤ (z : ℝ)) : round x ≤ z := by
  calc round x ≤ round ((z : ℝ)) := round_mono h
  _ = z := round_intCast z

/-! ### Helper lemmas about logScore -/

/-- The decimal logarithms in logScore cancel: the function equals the same
formula written with the natural logarithm. -/
theorem logScore_log (v c : ℝ) :
    logScore v c =
      round (clamp (Real.log (1 + max 0 v) / Real.log (1 + max 1 c) * 100) 0 100) := by
  have hc : (1 : ℝ) < 1 + max 1 c := by
    have := le_max_left (1 : ℝ) c
    linarith
  have hlogc : 0 < Real.log (1 + max 1 c) := Real.log_pos hc
  have hlog10 : 0 < Real.log (10 : ℝ) := Real.log_pos (by norm_num)
  unfold logScore
  rw [← Real.log_div_log, ← Real.log_div_log]
  congr 2
  field_simp

theorem logScore_nonneg (v c : ℝ) : 0 ≤ logScore v c :=
  int_le_round (by push_cast; exact le_clamp_left (by norm_num))

theorem logScore_le_100 (v c : ℝ) : logScore v c ≤ 100 :=
  round_le_int (by push_cast; exact clamp_le_right)

theorem logScore_mono {v w : ℝ} (c : ℝ) (h : v ≤ w) :
    logScore v c ≤ logScore w c := by
  unfold logScore
  apply round_mono
  apply clamp_mono
  have hc : (1 : ℝ) < 1 + max 1 c := by
    have := le_max_left (1 : ℝ) c
    linarith
  have hlogc : 0 < Real.logb 10 (1 + max 1 c) := Real.logb_pos (by norm_num) hc
  have hv : (0 : ℝ) < 1 + max 0 v := by
    have := le_max_left (0 : ℝ) v
    linarith
  have hlog : Real.logb 10 (1 + max 0 v) ≤ Real.logb 10 (1 + max 0 w) :=
    Real.logb_le_logb_of_le (by norm_num) hv (by
      have := max_le_max (le_refl (0 : ℝ)) h
      linarith)
  exact mul_le_mul_of_nonneg_right ((div_le_div_iff_of_pos_right hlogc).mpr hlog) (by norm_num)

/-- Saturation: a value at or above a cap that is at least 1 scores
exactly 100. -/
theorem logScore_sat {v c : ℝ} (h1 : 1 ≤ c) (h2 : c ≤ v) : logScore v c = 100 := by
  have hv : (0 : ℝ) ≤ v := by linarith
  unfold logScore
  rw [max_eq_right hv, max_eq_right h1]
  have hc : (1 : ℝ) < 1 + c := by linarith
  have hlogc : 0 < Real.logb 10 (1 + c) := Real.logb_pos (by norm_num) hc
  have hlog : Real.logb 10 (1 + c) ≤ Real.logb 10 (1 + v) :=
    Real.logb_le_logb_of_le (by norm_num) (by linarith) (by linarith)
  have hr : (1 : ℝ) ≤ Real.logb 10 (1 + v) / Real.logb 10 (1 + c) :=
    (one_le_div hlogc).mpr hlog
  rw [clamp_eq_right (by norm_num) (by linarith)]
  exact_mod_cast round_intCast 100

/-- A nonpositive value scores exactly 0. -/
theorem logScore_nonpos {v c : ℝ} (h : v ≤ 0) : logScore v c = 0 := by
  unfold logScore
  rw [max_eq_left h]
  rw [add_zero, Real.logb_one, zero_div, zero_mul]
  rw [clamp_eq_self le_rfl (by norm_num)]
  exact round_zero

/-- The score is at most 50 when the squared shifted value stays at or below
the shifted cap. -/
theorem logScore_le_50 {v c : ℝ} (h : (1 + max 0 v) ^ 2 ≤ 1 + max 1 c) :
    logScore v c ≤ 50 := by
  have hv1 : (1 : ℝ) ≤ 1 + max 0 v := by
    have := le_max_left (0 : ℝ) v
    linarith
  have hc : (1 : ℝ) < 1 + max 1 c := by
    have := le_max_left (1 : ℝ) c
    linarith
  have hlogc : 0 < Real.log (1 + max 1 c) := Real.log_pos hc
  have hlogv : 0 ≤ Real.log (1 + max 0 v) := Real.log_nonneg hv1
  have h2 : 2 * Real.log (1 + max 0 v) ≤ Real.log (1 + max 1 c) := by
    have := Real.log_le_log (by positivity) h
    rw [Real.log_pow] at this
    push_cast at this
    linarith
  have hr : Real.log (1 + max 0 v) / Real.log (1 + max 1 c) ≤ 1 / 2 := by
    rw [div_le_div_iff₀ hlogc (by norm_num)]
    linarith
  rw [logScore_log]
  apply round_le_int
  push_cast
  apply min_le_of_right_le
  apply max_le (by norm_num)
  nlinarith

/-- The score is at least 50 when the squared shifted value reaches the
shifted cap. -/
theorem le_logScore_50 {v c : ℝ} (h : 1 + max 1 c ≤ (1 + max 0 v) ^ 2) :
    (50 : ℤ) ≤ logScore v c := by
  have hv1 : (1 : ℝ) ≤ 1 + max 0 v := by
    have := le_max_left (0 : ℝ) v
    linarith
  have hc : (1 : ℝ) < 1 + max 1 c := by
    have := le_max_left (1 : ℝ) c
    linarith
  have hlogc : 0 < Real.log (1 + max 1 c) := Real.log_pos hc
  have h2 : Real.log (1 + max 1 c) ≤ 2 * Real.log (1 + max 0 v) := by
    have := Real.log_le_log (by linarith) h
    rw [Real.log_pow] at this
    push_cast at this
    linarith
  have hr : (1 : ℝ) / 2 ≤ Real.log (1 + max 0 v) / Real.log (1 + max 1 c) := by
    rw [div_le_div_iff₀ (by norm_num) hlogc]
    linarith
  rw [logScore_log]
  apply int_le_round
  push_cast
  apply le_min (by norm_num)
  have : (50 : ℝ) ≤ Real.log (1 + max 0 v) / Real.log (1 + max 1 c) * 100 := by
    nlinarith
  exact le_trans this (le_max_right _ _)

/-- The score is at least 13 when the eighth power of the shifted value
reaches the shifted cap. -/
theorem le_logScore_13 {v c : ℝ} (h : 1 + max 1 c ≤ (1 + max 0 v) ^ 8) :
    (13 : ℤ) ≤ logScore v c := by
  have hv1 : (1 : ℝ) ≤ 1 + max 0 v := by
    have := le_max_left (0 : ℝ) v
    linarith
  have hc : (1 : ℝ) < 1 + max 1 c := by
    have := le_max_left (1 : ℝ) c
    linarith
  have hlogc : 0 < Real.log (1 + max 1 c) := Real.log_pos hc
  have h2 : Real.log (1 + max 1 c) ≤ 8 * Real.log (1 + max 0 v) := by
    have := Real.log_le_log (by linarith) h
    rw [Real.log_pow] at this
    push_cast at this
    linarith
  have hr : (1 : ℝ) / 8 ≤ Real.log (1 + max 0 v) / Real.log (1 + max 1 c) := by
    rw [div_le_div_iff₀ (by norm_num) hlogc]
    linarith
  rw [logScore_log, round_eq]
  apply Int.le_floor.mpr
  push_cast
  have hx : (12.5 : ℝ) ≤ Real.log (1 + max 0 v) / Real.log (1 + max 1 c) * 100 := by
    nlinarith
  have : (12.5 : ℝ) ≤ clamp (Real.log (1 + max 0 v) / Real.log (1 + max 1 c) * 100) 0 100 :=
    le_min (by norm_num) (le_trans hx (le_max_right _ _))
  linarith

/-- The activity dimension of the tie witness: logScore 10 120 is exactly 50,
because log 11 / log 121 = 1/2. -/
theorem logScore_10_120 : logScore 10 120 = 50 := by
  rw [logScore_log]
  rw [max_eq_right (by norm_num : (0 : ℝ) ≤ 10), max_eq_right (by norm_num : (1 : ℝ) ≤ 120)]
  have h1 : (1 : ℝ) + 120 = 11 ^ 2 := by norm_num
  have h2 : (1 : ℝ) + 10 = 11 := by norm_num
  rw [h1, h2, Real.log_pow]
  have h11 : (0 : ℝ) < Real.log 11 := Real.log_pos (by norm_num)
  have hr : Real.log 11 / ((2 : ℕ) * Real.log 11) * 100 = 50 := by
    push_cast
    field_simp
    ring
  rw [hr, clamp_eq_self (by norm_num) (by norm_num)]
  exact_mod_cast round_intCast 50

/-- Flooring the value argument of logScore changes nothing: logScore floors
it itself. -/
theorem logScore_max0 (v c : ℝ) : logScore (max 0 v) c = logScore v c := by
  unfold logScore
  rw [max_eq_right (le_max_left 0 v)]

/-! ### Bounds on the breakdown dimensions -/

theorem styleScore_nonneg (i : AuraInputs) : 0 ≤ styleScore i :=
  int_le_round (by push_cast; exact le_clamp_left (by norm_num))

theorem styleScore_le_100 (i : AuraInputs) : styleScore i ≤ 100 :=
  round_le_int (by push_cast; exact clamp_le_right)

/-- Every breakdown dimension produced by computeAura is an integer
in [0, 100]. -/
theorem breakdownOf_bounds (i : AuraInputs) :
    (0 ≤ (breakdownOf i).activity ∧ (breakdownOf i).activity ≤ 100) ∧
      (0 ≤ (breakdownOf i).impact ∧ (breakdownOf i).impact ≤ 100) ∧
      (0 ≤ (breakdownOf i).social ∧ (breakdownOf i).social ≤ 100) ∧
      (0 ≤ (breakdownOf i).style ∧ (breakdownOf i).style ≤ 100) ∧
      (0 ≤ (breakdownOf i).onchain ∧ (breakdownOf i).onchain ≤ 100) := by
  refine ⟨⟨?_, ?_⟩, ⟨?_, ?_⟩, ⟨?_, ?_⟩, ⟨?_, ?_⟩, ⟨?_, ?_⟩⟩ <;>
    first
      | exact logScore_nonneg _ _
      | exact logScore_le_100 _ _
      | exact styleScore_nonneg _
      | exact styleScore_le_100 _

/-- The weighted score is nonnegative. -/
theorem weighted_nonneg (i : AuraInputs) : 0 ≤ weighted (breakdownOf i) := by
  obtain ⟨⟨a0, _⟩, ⟨i0, _⟩, ⟨s0, _⟩, ⟨t0, _⟩, ⟨o0, _⟩⟩ := breakdownOf_bounds i
  unfold weighted
  have ha : (0 : ℝ) ≤ (breakdownOf i).activity := by exact_mod_cast a0
  have hi : (0 : ℝ) ≤ (breakdownOf i).impact := by exact_mod_cast i0
  have hs : (0 : ℝ) ≤ (breakdownOf i).social := by exact_mod_cast s0
  have ht : (0 : ℝ) ≤ (breakdownOf i).style := by exact_mod_cast t0
  have ho : (0 : ℝ) ≤ (breakdownOf i).onchain := by exact_mod_cast o0
  nlinarith

/-! ### The selection fold -/

/-- The selected entry is one of the candidates. -/
theorem topEntry_mem (best : AuraType × ℝ) (l : List (AuraType × ℝ)) :
    topEntry best l ∈ best :: l := by
  induction l generalizing best with
  | nil => simp [topEntry]
  | cons e rest ih =>
      rw [topEntry]
      by_cases hc : e.2 > best.2
      · rw [if_pos hc]
        rcases List.mem_cons.mp (ih e) with h | h
        · rw [h]
          simp
        · simp [h]
      · rw [if_neg hc]
        rcases List.mem_cons.mp (ih best) with h | h
        · rw [h]
          simp
        · simp [h]

/-- Characterization of the fold over the five affinity entries: the result
is the first entry attaining the maximal value. -/
theorem topEntry_five (vb vc vi vt vd : ℝ) :
    ((topEntry (AuraType.BUILDER, vb)
        [(.CREATOR, vc), (.INFLUENCER, vi), (.THINKER, vt), (.DEGEN, vd)]).1 = .BUILDER ↔
      vc ≤ vb ∧ vi ≤ vb ∧ vt ≤ vb ∧ vd ≤ vb) ∧
    ((topEntry (AuraType.BUILDER, vb)
        [(.CREATOR, vc), (.INFLUENCER, vi), (.THINKER, vt), (.DEGEN, vd)]).1 = .CREATOR ↔
      vb < vc ∧ vi ≤ vc ∧ vt ≤ vc ∧ vd ≤ vc) ∧
    ((topEntry (AuraType.BUILDER, vb)
        [(.CREATOR, vc), (.INFLUENCER, vi), (.THINKER, vt), (.DEGEN, vd)]).1 = .INFLUENCER ↔
      vb < vi ∧ vc < vi ∧ vt ≤ vi ∧ vd ≤ vi) ∧
    ((topEntry (AuraType.BUILDER, vb)
        [(.CREATOR, vc), (.INFLUENCER, vi), (.THINKER, vt), (.DEGEN, vd)]).1 = .THINKER ↔
      vb < vt ∧ vc < vt ∧ vi < vt ∧ vd ≤ vt) ∧
    ((topEntry (AuraType.BUILDER, vb)
        [(.CREATOR, vc), (.INFLUENCER, vi), (.THINKER, vt), (.DEGEN, vd)]).1 = .DEGEN ↔
      vb < vd ∧ vc < vd ∧ vi < vd ∧ vt < vd) := by
  simp only [topEntry]
  split_ifs with h1 h2 h3 h4 h5 h6 h7 h8 h9 h10 h11 h12 h13 h14 h15
  all_goals dsimp only at *
  all_goals push_neg at *
  all_goals
    refine ⟨?_, ?_, ?_, ?_, ?_⟩ <;>
      constructor <;>
      intro h <;>
      first
        | rfl
        | (exact absurd h (by decide))
        | (refine ⟨by linarith, by linarith, by linarith, by linarith⟩)
        | (exfalso
           obtain ⟨ha, hb, hc, hd⟩ := h
           linarith)

/-! ### Small computation helpers -/

theorem round_eq_int {z : ℤ} {x : ℝ} (h : x = (z : ℝ)) : round x = z := by
  rw [h]
  exact round_intCast z

theorem max0_idem (a : ℝ) : max 0 (max 0 a) = max 0 a := by
  rw [← max_assoc, max_self]

theorem clamp01_zero : clamp01 0 = 0 := clamp_eq_self le_rfl zero_le_one

theorem pickAuraType_of_lurker {i : AuraInputs} {b : AuraBreakdown}
    (h : isLurker i b) : pickAuraType i b = .LURKER := by
  rw [pickAuraType, if_pos h]

theorem pickAuraType_of_not_lurker {i : AuraInputs} {b : AuraBreakdown}
    (h : ¬ isLurker i b) :
    pickAuraType i b =
      (topEntry (.BUILDER, builder i b)
        [(.CREATOR, creator b), (.INFLUENCER, influencer b),
         (.THINKER, thinker i b), (.DEGEN, degen b)]).1 := by
  rw [pickAuraType, if_neg h]

theorem computeAura_type (i : AuraInputs) :
    (computeAura i).type = pickAuraType i (breakdownOf i) := rfl

theorem computeAura_breakdown (i : AuraInputs) :
    (computeAura i).breakdown = breakdownOf i := rfl

theorem computeAura_score_lurker {i : AuraInputs}
    (h : pickAuraType i (breakdownOf i) = .LURKER) :
    (computeAura i).score = round (clamp (weighted (breakdownOf i) * 0.7 + 10) 0 60) := by
  unfold computeAura
  simp only [h, if_pos]

theorem computeAura_score_not_lurker {i : AuraInputs}
    (h : pickAuraType i (breakdownOf i) ≠ .LURKER) :
    (computeAura i).score = round (clamp (weighted (breakdownOf i)) 0 100) := by
  unfold computeAura
  simp only [if_neg h]

/-! ### The sanitizer congruences behind claim C2 -/

/-- Sanitizing every field except casts and replies never changes the
breakdown. -/
theorem breakdownOf_sanitizeRest (i : AuraInputs) :
    breakdownOf (sanitizeRest i) = breakdownOf i := by
  unfold breakdownOf sanitizeRest sanitize styleScore
  simp only [Option.getD_some]
  rw [clamp01_idem, clamp01_idem, max0_idem, logScore_max0, logScore_max0]

/-- Sanitizing every field except casts and replies never changes the picked
archetype. -/
theorem pickAuraType_sanitizeRest (i : AuraInputs) (b : AuraBreakdown) :
    pickAuraType (sanitizeRest i) b = pickAuraType i b := by
  have ht : thinker (sanitizeRest i) b = thinker i b := by
    unfold thinker sanitizeRest sanitize
    simp only [Option.getD_some, clamp01_idem]
  unfold pickAuraType
  rw [ht]
  rfl

/-- Sanitizing every field except casts and replies never changes the
result. -/
theorem computeAura_sanitizeRest (i : AuraInputs) :
    computeAura (sanitizeRest i) = computeAura i := by
  unfold computeAura
  rw [breakdownOf_sanitizeRest, pickAuraType_sanitizeRest]

/-- With nonnegative casts and replies the full sanitizer coincides with the
restricted one. -/
theorem sanitize_eq_sanitizeRest {i : AuraInputs} (h1 : 0 ≤ i.casts)
    (h2 : 0 ≤ i.replies) : sanitize i = sanitizeRest i := by
  unfold sanitizeRest sanitize
  simp only [AuraInputs.mk.injEq, and_true, true_and]
  exact ⟨max_eq_right h1, max_eq_right h2⟩

/-! ### Evaluation at the concrete inputs -/

theorem breakdownOf_activity (i : AuraInputs) :
    (breakdownOf i).activity = logScore (i.casts + i.replies * 1.2) 120 := rfl

theorem breakdownOf_impact (i : AuraInputs) :
    (breakdownOf i).impact = logScore i.reactionsReceived 250 := rfl

theorem breakdownOf_social (i : AuraInputs) :
    (breakdownOf i).social = logScore i.followers 2000 := rfl

theorem breakdownOf_style (i : AuraInputs) :
    (breakdownOf i).style = styleScore i := rfl

theorem breakdownOf_onchain (i : AuraInputs) :
    (breakdownOf i).onchain = logScore (max 0 (i.baseTxCount.getD 0)) 40 := rfl

theorem max0_of_nonneg {a : ℝ} (h : 0 ≤ a) : max 0 a = a := max_eq_right h

theorem max0_of_nonpos {a : ℝ} (h : a ≤ 0) : max 0 a = 0 := max_eq_left h

theorem zeroInputs_lurker : isLurker zeroInputs (breakdownOf zeroInputs) := by
  left
  show max 0 zeroInputs.casts + max 0 zeroInputs.replies ≤ 2
  norm_num [zeroInputs]

theorem lowFootprint_lurker :
    isLurker lowFootprintInputs (breakdownOf lowFootprintInputs) := by
  left
  show max 0 lowFootprintInputs.casts + max 0 lowFootprintInputs.replies ≤ 2
  norm_num [lowFootprintInputs]

theorem tie_breakdown : breakdownOf tieInputs = ⟨50, 100, 0, 40, 0⟩ := by
  have ha : (breakdownOf tieInputs).activity = 50 := by
    rw [breakdownOf_activity]
    have h : tieInputs.casts + tieInputs.replies * 1.2 = 10 := by
      norm_num [tieInputs]
    rw [h]
    exact logScore_10_120
  have hi : (breakdownOf tieInputs).impact = 100 := by
    rw [breakdownOf_impact]
    show logScore (250 : ℝ) 250 = 100
    exact logScore_sat (by norm_num) le_rfl
  have hs : (breakdownOf tieInputs).social = 0 := by
    rw [breakdownOf_social]
    show logScore (0 : ℝ) 2000 = 0
    exact logScore_nonpos le_rfl
  have ht : (breakdownOf tieInputs).style = 40 := by
    rw [breakdownOf_style]
    unfold styleScore
    show round (clamp (clamp01 ((none : Option ℝ).getD 0) * 55 +
      clamp01 ((some ((8 : ℝ) / 9)).getD 0) * 45) 0 100) = 40
    have h89 : clamp01 ((8 : ℝ) / 9) = 8 / 9 := by
      unfold clamp01
      exact clamp_eq_self (by norm_num) (by norm_num)
    rw [Option.getD_none, Option.getD_some, clamp01_zero, h89]
    rw [show (0 : ℝ) * 55 + 8 / 9 * 45 = 40 by norm_num]
    rw [clamp_eq_self (by norm_num) (by norm_num)]
    exact round_eq_int (by norm_num)
  have ho : (breakdownOf tieInputs).onchain = 0 := by
    rw [breakdownOf_onchain]
    show logScore (max 0 ((none : Option ℝ).getD 0)) 40 = 0
    rw [Option.getD_none, max_self]
    exact logScore_nonpos le_rfl
  cases hb : breakdownOf tieInputs
  rw [hb] at ha hi hs ht ho
  simp only at ha hi hs ht ho
  rw [ha, hi, hs, ht, ho]

theorem tie_builder : builder tieInputs (breakdownOf tieInputs) = 50 := by
  rw [tie_breakdown]
  unfold builder
  dsimp only
  rw [if_neg]
  · push_cast
    norm_num
  · have h1 : tieInputs.replies = 0 := rfl
    have h2 : tieInputs.casts = 10 := rfl
    rw [h1, h2, max_self, max0_of_nonneg (by norm_num)]
    norm_num

theorem tie_creator : creator (breakdownOf tieInputs) = 50 := by
  rw [tie_breakdown]
  unfold creator
  dsimp only
  push_cast
  norm_num

theorem tie_influencer : influencer (breakdownOf tieInputs) = 50 := by
  rw [tie_breakdown]
  unfold influencer
  dsimp only
  push_cast
  norm_num

theorem tie_thinker : thinker tieInputs (breakdownOf tieInputs) = 39.5 := by
  rw [tie_breakdown]
  unfold thinker
  dsimp only
  rw [if_neg]
  · push_cast
    norm_num
  · have h1 : tieInputs.longCastRatio = none := rfl
    rw [h1, Option.getD_none, clamp01_zero]
    norm_num

theorem tie_degen : degen (breakdownOf tieInputs) = 25 := by
  rw [tie_breakdown]
  unfold degen
  dsimp only
  push_cast
  norm_num

theorem tie_not_lurker : ¬ isLurker tieInputs (breakdownOf tieInputs) := by
  rw [tie_breakdown]
  intro h
  rcases h with h | h
  · have h1 : tieInputs.replies = 0 := rfl
    have h2 : tieInputs.casts = 10 := rfl
    rw [h1, h2, max_self, max0_of_nonneg (by norm_num)] at h
    norm_num at h
  · have h2 := h.2.1
    dsimp only at h2
    norm_num at h2

theorem degen_activity_lb : (13 : ℤ) ≤ (breakdownOf degenInputs).activity := by
  rw [breakdownOf_activity]
  rw [show degenInputs.casts + degenInputs.replies * 1.2 = 12.4 by
    have h1 : degenInputs.casts = 10 := rfl
    have h2 : degenInputs.replies = 2 := rfl
    rw [h1, h2]
    norm_num]
  apply le_logScore_13
  rw [max0_of_nonneg (by norm_num), max_eq_right (by norm_num)]
  norm_num

theorem degen_impact_ub : (breakdownOf degenInputs).impact ≤ 50 := by
  rw [breakdownOf_impact]
  rw [show degenInputs.reactionsReceived = 5 from rfl]
  apply logScore_le_50
  rw [max0_of_nonneg (by norm_num), max_eq_right (by norm_num)]
  norm_num

theorem degen_social_ub : (breakdownOf degenInputs).social ≤ 50 := by
  rw [breakdownOf_social]
  rw [show degenInputs.followers = 20 from rfl]
  apply logScore_le_50
  rw [max0_of_nonneg (by norm_num), max_eq_right (by norm_num)]
  norm_num

theorem degen_style : (breakdownOf degenInputs).style = 0 := by
  rw [breakdownOf_style]
  unfold styleScore
  rw [show degenInputs.longCastRatio = none from rfl,
    show degenInputs.mediaCastRatio = none from rfl,
    Option.getD_none, clamp01_zero]
  rw [show (0 : ℝ) * 55 + 0 * 45 = 0 by norm_num]
  rw [clamp_eq_self le_rfl (by norm_num)]
  exact round_zero

theorem degen_onchain : (breakdownOf degenInputs).onchain = 100 := by
  rw [breakdownOf_onchain]
  rw [show degenInputs.baseTxCount = some 60 from rfl, Option.getD_some,
    max0_of_nonneg (by norm_num)]
  exact logScore_sat (by norm_num) (by norm_num)

theorem degen_not_lurker : ¬ isLurker degenInputs (breakdownOf degenInputs) := by
  intro h
  rcases h with h | h
  · rw [show degenInputs.casts = 10 from rfl, show degenInputs.replies = 2 from rfl,
      max0_of_nonneg (by norm_num), max0_of_nonneg (by norm_num)] at h
    norm_num at h
  · have := degen_activity_lb
    omega

theorem degen_type : pickAuraType degenInputs (breakdownOf degenInputs) = .DEGEN := by
  rw [pickAuraType_of_not_lurker degen_not_lurker]
  apply (topEntry_five _ _ _ _ _).2.2.2.2.mpr
  have ha1 : (13 : ℝ) ≤ ((breakdownOf degenInputs).activity : ℝ) := by
    exact_mod_cast degen_activity_lb
  have ha2 : ((breakdownOf degenInputs).activity : ℝ) ≤ 100 := by
    exact_mod_cast logScore_le_100 _ _
  have hi1 : (0 : ℝ) ≤ ((breakdownOf degenInputs).impact : ℝ) := by
    exact_mod_cast logScore_nonneg _ _
  have hi2 : ((breakdownOf degenInputs).impact : ℝ) ≤ 50 := by
    exact_mod_cast degen_impact_ub
  have hs1 : (0 : ℝ) ≤ ((breakdownOf degenInputs).social : ℝ) := by
    exact_mod_cast logScore_nonneg _ _
  have hs2 : ((breakdownOf degenInputs).social : ℝ) ≤ 50 := by
    exact_mod_cast degen_social_ub
  have hst : ((breakdownOf degenInputs).style : ℝ) = 0 := by
    exact_mod_cast degen_style
  have hon : ((breakdownOf degenInputs).onchain : ℝ) = 100 := by
    exact_mod_cast degen_onchain
  have hbond : (if max 0 degenInputs.replies > max 0 degenInputs.casts
      then (10 : ℝ) else 0) = 0 := by
    rw [if_neg]
    rw [show degenInputs.replies = 2 from rfl, show degenInputs.casts = 10 from rfl,
      max0_of_nonneg (by norm_num), max0_of_nonneg (by norm_num)]
    norm_num
  have htbond : (if clamp01 (degenInputs.longCastRatio.getD 0) > 0.35
      then (10 : ℝ) else 0) = 0 := by
    rw [if_neg]
    rw [show degenInputs.longCastRatio = none from rfl, Option.getD_none, clamp01_zero]
    norm_num
  unfold builder creator influencer thinker degen
  rw [hbond, htbond, hst, hon]
  refine ⟨by nlinarith, by nlinarith, by nlinarith, by nlinarith⟩

theorem cap_activity : (breakdownOf capInputs).activity = 100 := by
  rw [breakdownOf_activity]
  rw [show capInputs.casts + capInputs.replies * 1.2 = 120 by
    rw [show capInputs.casts = 120 from rfl, show capInputs.replies = 0 from rfl]
    norm_num]
  exact logScore_sat (by norm_num) le_rfl

theorem cap_impact : (breakdownOf capInputs).impact = 100 := by
  rw [breakdownOf_impact, show capInputs.reactionsReceived = 250 from rfl]
  exact logScore_sat (by norm_num) le_rfl

theorem cap_social : (breakdownOf capInputs).social = 100 := by
  rw [breakdownOf_social, show capInputs.followers = 2000 from rfl]
  exact logScore_sat (by norm_num) le_rfl

theorem cap_onchain : (breakdownOf capInputs).onchain = 100 := by
  rw [breakdownOf_onchain, show capInputs.baseTxCount = some 40 from rfl,
    Option.getD_some, max0_of_nonneg (by norm_num)]
  exact logScore_sat (by norm_num) le_rfl

theorem active_activity : (breakdownOf activeInputs).activity = 100 := by
  rw [breakdownOf_activity]
  rw [show activeInputs.casts + activeInputs.replies * 1.2 = 200 by
    rw [show activeInputs.casts = 200 from rfl, show activeInputs.replies = 0 from rfl]
    norm_num]
  exact logScore_sat (by norm_num) (by norm_num)

theorem active_not_lurker : ¬ isLurker activeInputs (breakdownOf activeInputs) := by
  have hact := active_activity
  intro h
  rcases h with h | h
  · rw [show activeInputs.casts = 200 from rfl, show activeInputs.replies = 0 from rfl,
      max0_of_nonneg (by norm_num), max_self] at h
    norm_num at h
  · rw [hact] at h
    norm_num at h

theorem negCasts_activity : (breakdownOf negCastsInputs).activity = 0 := by
  rw [breakdownOf_activity]
  rw [show negCastsInputs.casts + negCastsInputs.replies * 1.2 = -988 by
    rw [show negCastsInputs.casts = -1000 from rfl,
      show negCastsInputs.replies = 10 from rfl]
    norm_num]
  exact logScore_nonpos (by norm_num)

theorem negCasts_sanitized_activity :
    (50 : ℤ) ≤ (breakdownOf (sanitize negCastsInputs)).activity := by
  rw [breakdownOf_activity]
  rw [show (sanitize negCastsInputs).casts + (sanitize negCastsInputs).replies * 1.2 = 12 by
    show max 0 negCastsInputs.casts + max 0 negCastsInputs.replies * 1.2 = 12
    rw [show negCastsInputs.casts = -1000 from rfl,
      show negCastsInputs.replies = 10 from rfl,
      max0_of_nonpos (by norm_num), max0_of_nonneg (by norm_num)]
    norm_num]
  apply le_logScore_50
  rw [max0_of_nonneg (by norm_num), max_eq_right (by norm_num)]
  norm_num

/-! ### The claims -/

/-- C1: for every input record, computeAura returns a result whose score is
an integer in [0,100] and whose breakdown has each of the five dimensions an
integer in [0,100]; and whenever the returned type is LURKER, the score lies
in [10,60]. -/
theorem claim_C1 (i : AuraInputs) :
    (0 ≤ (computeAura i).score ∧ (computeAura i).score ≤ 100) ∧
    ((0 ≤ (computeAura i).breakdown.activity ∧ (computeAura i).breakdown.activity ≤ 100) ∧
      (0 ≤ (computeAura i).breakdown.impact ∧ (computeAura i).breakdown.impact ≤ 100) ∧
      (0 ≤ (computeAura i).breakdown.social ∧ (computeAura i).breakdown.social ≤ 100) ∧
      (0 ≤ (computeAura i).breakdown.style ∧ (computeAura i).breakdown.style ≤ 100) ∧
      (0 ≤ (computeAura i).breakdown.onchain ∧ (computeAura i).breakdown.onchain ≤ 100)) ∧
    ((computeAura i).type = .LURKER →
      10 ≤ (computeAura i).score ∧ (computeAura i).score ≤ 60) := by
  refine ⟨?_, ?_, ?_⟩
  · by_cases h : pickAuraType i (breakdownOf i) = .LURKER
    · rw [computeAura_score_lurker h]
      refine ⟨int_le_round (by push_cast; exact le_clamp_left (by norm_num)), ?_⟩
      have h60 : round (clamp (weighted (breakdownOf i) * 0.7 + 10) 0 60) ≤ 60 :=
        round_le_int (by push_cast; exact clamp_le_right)
      omega
    · rw [computeAura_score_not_lurker h]
      exact ⟨int_le_round (by push_cast; exact le_clamp_left (by norm_num)),
        round_le_int (by push_cast; exact clamp_le_right)⟩
  · rw [computeAura_breakdown]
    exact breakdownOf_bounds i
  · intro ht
    rw [computeAura_type] at ht
    rw [computeAura_score_lurker ht]
    constructor
    · apply int_le_round
      have hw : 0 ≤ weighted (breakdownOf i) := weighted_nonneg i
      push_cast
      apply le_min (by norm_num)
      have h10 : (10 : ℝ) ≤ weighted (breakdownOf i) * 0.7 + 10 := by nlinarith
      exact le_trans h10 (le_max_right _ _)
    · exact round_le_int (by push_cast; exact clamp_le_right)

/-- Witness for C1: the all-zero record is a LURKER, and its score lies
in [10,60]. -/
theorem claim_C1_witness :
    10 ≤ (computeAura zeroInputs).score ∧ (computeAura zeroInputs).score ≤ 60 :=
  (claim_C1 zeroInputs).2.2 (by
    rw [computeAura_type]
    exact pickAuraType_of_lurker zeroInputs_lurker)

/-- Counterexample to C2 as stated: with casts = -1000 and replies = 10 the
activity raw value is floored as a whole (giving activity 0), while the
spec-modelled sanitizer floors casts and replies separately (giving
activity at least 50), so computeAura disagrees with computeAura after
sanitize. -/
theorem claim_C2_counterexample :
    computeAura negCastsInputs ≠ computeAura (sanitize negCastsInputs) := by
  intro h
  have hb := congrArg (fun r => r.breakdown.activity) h
  simp only at hb
  rw [computeAura_breakdown, computeAura_breakdown, negCasts_activity] at hb
  have h50 := negCasts_sanitized_activity
  omega

/-- C2 as amended: sanitizing the ratios, the optional fields,
reactionsReceived, followers and baseTxCount never changes the result; and
when casts and replies are nonnegative the full spec sanitizer is also
invisible.  (As stated the claim fails, because the activity raw value
floors only the combined sum casts + 1.2*replies.) -/
theorem claim_C2 (i : AuraInputs) :
    computeAura (sanitizeRest i) = computeAura i ∧
    (0 ≤ i.casts → 0 ≤ i.replies → computeAura (sanitize i) = computeAura i) := by
  refine ⟨computeAura_sanitizeRest i, fun h1 h2 => ?_⟩
  rw [sanitize_eq_sanitizeRest h1 h2]
  exact computeAura_sanitizeRest i

/-- Witness for the amended C2 at the all-zero record. -/
theorem claim_C2_witness :
    computeAura (sanitize zeroInputs) = computeAura zeroInputs :=
  (claim_C2 zeroInputs).2 (by norm_num [zeroInputs]) (by norm_num [zeroInputs])

/-- C3: the LURKER override: a floored footprint of at most 2, or all three
of activity, impact, social at most 12, forces type LURKER regardless of
everything else. -/
theorem claim_C3 (i : AuraInputs)
    (h : max 0 i.casts + max 0 i.replies ≤ 2 ∨
      ((computeAura i).breakdown.activity ≤ 12 ∧
        (computeAura i).breakdown.impact ≤ 12 ∧
        (computeAura i).breakdown.social ≤ 12)) :
    (computeAura i).type = .LURKER := by
  rw [computeAura_type]
  apply pickAuraType_of_lurker
  rw [computeAura_breakdown] at h
  exact h

/-- Witness for C3: casts 1, replies 0, reactions 1000, followers 1000000
still yields LURKER. -/
theorem claim_C3_witness : (computeAura lowFootprintInputs).type = .LURKER :=
  claim_C3 lowFootprintInputs (Or.inl (by
    rw [show lowFootprintInputs.casts = 1 from rfl,
      show lowFootprintInputs.replies = 0 from rfl,
      max0_of_nonneg (by norm_num), max_self]
    norm_num))

/-- C4: the dimension normalization equals
round(clamp(log(1+max(0,v)) / log(1+max(1,c)) * 100, 0, 100)) for the
natural logarithm: the decimal base of the source cancels in the ratio. -/
theorem claim_C4 (v c : ℝ) :
    logScore v c =
      round (clamp (Real.log (1 + max 0 v) / Real.log (1 + max 1 c) * 100) 0 100) :=
  logScore_log v c

/-- C5: when the LURKER override does not apply, computeAura selects the
archetype with the greatest affinity, ties resolving to the archetype listed
first in the order BUILDER, CREATOR, INFLUENCER, THINKER, DEGEN. -/
theorem claim_C5 (i : AuraInputs) (h : ¬ isLurker i (breakdownOf i)) :
    ((computeAura i).type = .BUILDER ↔
      creator (breakdownOf i) ≤ builder i (breakdownOf i) ∧
      influencer (breakdownOf i) ≤ builder i (breakdownOf i) ∧
      thinker i (breakdownOf i) ≤ builder i (breakdownOf i) ∧
      degen (breakdownOf i) ≤ builder i (breakdownOf i)) ∧
    ((computeAura i).type = .CREATOR ↔
      builder i (breakdownOf i) < creator (breakdownOf i) ∧
      influencer (breakdownOf i) ≤ creator (breakdownOf i) ∧
      thinker i (breakdownOf i) ≤ creator (breakdownOf i) ∧
      degen (breakdownOf i) ≤ creator (breakdownOf i)) ∧
    ((computeAura i).type = .INFLUENCER ↔
      builder i (breakdownOf i) < influencer (breakdownOf i) ∧
      creator (breakdownOf i) < influencer (breakdownOf i) ∧
      thinker i (breakdownOf i) ≤ influencer (breakdownOf i) ∧
      degen (breakdownOf i) ≤ influencer (breakdownOf i)) ∧
    ((computeAura i).type = .THINKER ↔
      builder i (breakdownOf i) < thinker i (breakdownOf i) ∧
      creator (breakdownOf i) < thinker i (breakdownOf i) ∧
      influencer (breakdownOf i) < thinker i (breakdownOf i) ∧
      degen (breakdownOf i) ≤ thinker i (breakdownOf i)) ∧
    ((computeAura i).type = .DEGEN ↔
      builder i (breakdownOf i) < degen (breakdownOf i) ∧
      creator (breakdownOf i) < degen (breakdownOf i) ∧
      influencer (breakdownOf i) < degen (breakdownOf i) ∧
      thinker i (breakdownOf i) < degen (breakdownOf i)) := by
  rw [computeAura_type, pickAuraType_of_not_lurker h]
  exact topEntry_five _ _ _ _ _

/-- Witness for C5: on the engineered record the builder and creator
affinities are exactly equal and maximal, and BUILDER is returned. -/
theorem claim_C5_witness :
    (computeAura tieInputs).type = .BUILDER ∧
    builder tieInputs (breakdownOf tieInputs) = creator (breakdownOf tieInputs) := by
  constructor
  · apply ((claim_C5 tieInputs tie_not_lurker).1).mpr
    rw [tie_builder, tie_creator, tie_influencer, tie_thinker, tie_degen]
    norm_num
  · rw [tie_builder, tie_creator]

/-- C6: each count metric is monotone for its own breakdown dimension:
raising casts or replies never lowers activity, raising reactionsReceived
never lowers impact, raising followers never lowers social, raising
baseTxCount never lowers onchain. -/
theorem claim_C6 (i : AuraInputs) (x y : ℝ) (h : x ≤ y) :
    (computeAura { i with casts := x }).breakdown.activity ≤
      (computeAura { i with casts := y }).breakdown.activity ∧
    (computeAura { i with replies := x }).breakdown.activity ≤
      (computeAura { i with replies := y }).breakdown.activity ∧
    (computeAura { i with reactionsReceived := x }).breakdown.impact ≤
      (computeAura { i with reactionsReceived := y }).breakdown.impact ∧
    (computeAura { i with followers := x }).breakdown.social ≤
      (computeAura { i with followers := y }).breakdown.social ∧
    (computeAura { i with baseTxCount := some x }).breakdown.onchain ≤
      (computeAura { i with baseTxCount := some y }).breakdown.onchain := by
  refine ⟨?_, ?_, ?_, ?_, ?_⟩ <;>
    rw [computeAura_breakdown, computeAura_breakdown]
  · rw [breakdownOf_activity, breakdownOf_activity]
    dsimp only
    exact logScore_mono _ (by linarith)
  · rw [breakdownOf_activity, breakdownOf_activity]
    dsimp only
    have hm := mul_le_mul_of_nonneg_right h (by norm_num : (0 : ℝ) ≤ 1.2)
    exact logScore_mono _ (by linarith)
  · rw [breakdownOf_impact, breakdownOf_impact]
    dsimp only
    exact logScore_mono _ h
  · rw [breakdownOf_social, breakdownOf_social]
    dsimp only
    exact logScore_mono _ h
  · rw [breakdownOf_onchain, breakdownOf_onchain]
    dsimp only [Option.getD_some]
    rw [logScore_max0, logScore_max0]
    exact logScore_mono _ h

/-- Witness for C6: raising casts from 0 to 5 on the zero record never
lowers activity. -/
theorem claim_C6_witness :
    (computeAura { zeroInputs with casts := (0 : ℝ) }).breakdown.activity ≤
      (computeAura { zeroInputs with casts := (5 : ℝ) }).breakdown.activity :=
  (claim_C6 zeroInputs 0 5 (by norm_num)).1

/-- C7: a raw value at or above the cap of a dimension saturates that
dimension at exactly 100. -/
theorem claim_C7 (i : AuraInputs) :
    (120 ≤ i.casts + i.replies * 1.2 → (computeAura i).breakdown.activity = 100) ∧
    (250 ≤ i.reactionsReceived → (computeAura i).breakdown.impact = 100) ∧
    (2000 ≤ i.followers → (computeAura i).breakdown.social = 100) ∧
    (40 ≤ i.baseTxCount.getD 0 → (computeAura i).breakdown.onchain = 100) := by
  refine ⟨fun h => ?_, fun h => ?_, fun h => ?_, fun h => ?_⟩ <;>
    rw [computeAura_breakdown]
  · rw [breakdownOf_activity]
    exact logScore_sat (by norm_num) h
  · rw [breakdownOf_impact]
    exact logScore_sat (by norm_num) h
  · rw [breakdownOf_social]
    exact logScore_sat (by norm_num) h
  · rw [breakdownOf_onchain, max0_of_nonneg (le_trans (by norm_num) h)]
    exact logScore_sat (by norm_num) h

/-- Witness for C7: the record sitting exactly at every cap saturates all
four log-normalized dimensions. -/
theorem claim_C7_witness :
    (computeAura capInputs).breakdown.activity = 100 ∧
    (computeAura capInputs).breakdown.impact = 100 ∧
    (computeAura capInputs).breakdown.social = 100 ∧
    (computeAura capInputs).breakdown.onchain = 100 := by
  have h := claim_C7 capInputs
  refine ⟨h.1 ?_, h.2.1 ?_, h.2.2.1 ?_, h.2.2.2 ?_⟩
  · rw [show capInputs.casts = 120 from rfl, show capInputs.replies = 0 from rfl]
    norm_num
  · rw [show capInputs.reactionsReceived = 250 from rfl]
  · rw [show capInputs.followers = 2000 from rfl]
  · rw [show capInputs.baseTxCount = some 40 from rfl, Option.getD_some]

/-- Counterexample to C8 as stated: an input yielding DEGEN carries a
description that differs from the string printed in the section 6 table of
the spec, whose apostrophe is the ASCII one while the code uses the right
single quotation mark. -/
theorem claim_C8_counterexample :
    (computeAura degenInputs).type = .DEGEN ∧
    (computeAura degenInputs).description ≠ specDegenDescription := by
  constructor
  · rw [computeAura_type]
    exact degen_type
  · have h : (computeAura degenInputs).description = (meta .DEGEN).description := by
      show (meta (pickAuraType degenInputs (breakdownOf degenInputs))).description = _
      rw [degen_type]
    rw [h]
    decide

/-- C8 as amended: the emoji, label and description of every result are
exactly the meta triple of the returned archetype, and the six triples are
the fixed strings of the source (the DEGEN description carrying the right
single quotation mark rather than the ASCII apostrophe shown in the spec
table). -/
theorem claim_C8 (i : AuraInputs) :
    ((computeAura i).emoji = (meta (computeAura i).type).emoji ∧
      (computeAura i).label = (meta (computeAura i).type).label ∧
      (computeAura i).description = (meta (computeAura i).type).description) ∧
    meta .BUILDER = ⟨"🛠", "Builder Aura", "You ship more than you talk. Keep building."⟩ ∧
    meta .CREATOR = ⟨"🎨", "Creator Aura", "Taste + output. You make the timeline prettier."⟩ ∧
    meta .INFLUENCER =
      ⟨"📣", "Influencer Aura", "You move attention. The feed follows your signal."⟩ ∧
    meta .THINKER =
      ⟨"🧠", "Thinker Aura", "Depth merchant. Your replies add real brainpower."⟩ ∧
    meta .DEGEN =
      ⟨"🎰", "Degen Aura", "Onchain instincts. You’re early, often, and unbothered."⟩ ∧
    meta .LURKER =
      ⟨"👀", "Lurker Aura", "Silent watcher. Your aura is mysterious (and powerful)."⟩ :=
  ⟨⟨rfl, rfl, rfl⟩, rfl, rfl, rfl, rfl, rfl, rfl⟩

/-- C9: on casts 10, replies 2, reactions 5, followers 20, baseTxCount 60,
the onchain dimension saturates at exactly 100 and the archetype is DEGEN. -/
theorem claim_C9 :
    (computeAura degenInputs).breakdown.onchain = 100 ∧
    (computeAura degenInputs).type = .DEGEN := by
  constructor
  · rw [computeAura_breakdown]
    exact degen_onchain
  · rw [computeAura_type]
    exact degen_type

/-- C10: whenever the override condition fails, the returned type is one of
the five scored archetypes and never LURKER. -/
theorem claim_C10 (i : AuraInputs)
    (h1 : 2 < max 0 i.casts + max 0 i.replies)
    (h2 : 12 < (computeAura i).breakdown.activity ∨
      12 < (computeAura i).breakdown.impact ∨
      12 < (computeAura i).breakdown.social) :
    (computeAura i).type ≠ .LURKER ∧
    ((computeAura i).type = .BUILDER ∨ (computeAura i).type = .CREATOR ∨
      (computeAura i).type = .INFLUENCER ∨ (computeAura i).type = .THINKER ∨
      (computeAura i).type = .DEGEN) := by
  have hn : ¬ isLurker i (breakdownOf i) := by
    intro h
    rcases h with h | h
    · linarith
    · rw [computeAura_breakdown] at h2
      rcases h2 with h2 | h2 | h2 <;> omega
  rw [computeAura_type, pickAuraType_of_not_lurker hn]
  have hm := topEntry_mem (AuraType.BUILDER, builder i (breakdownOf i))
    [(.CREATOR, creator (breakdownOf i)), (.INFLUENCER, influencer (breakdownOf i)),
     (.THINKER, thinker i (breakdownOf i)), (.DEGEN, degen (breakdownOf i))]
  simp only [List.mem_cons, List.not_mem_nil, or_false] at hm
  rcases hm with h | h | h | h | h <;> rw [h] <;> exact ⟨by simp, by simp⟩

/-- Witness for C10: the record with 200 casts is not a LURKER. -/
theorem claim_C10_witness : (computeAura activeInputs).type ≠ .LURKER :=
  (claim_C10 activeInputs
    (by
      rw [show activeInputs.casts = 200 from rfl, show activeInputs.replies = 0 from rfl,
        max0_of_nonneg (by norm_num), max_self]
      norm_num)
    (Or.inl (by
      rw [computeAura_breakdown, active_activity]
      norm_num))).1

end Aura
